import Mathlib

/-!
Verification of the sheet/range access model of `python-calamine`
(`src/types/sheet.rs`): dimension queries, bulk materialization
(`to_python`), merge mutation (`merge_cells`), the merged-cells overlay
and the padded row iterator (`CalamineCellIterator`).

The Rust code is shallowly embedded: `u32`/`usize` become `Nat` (the one
place where unsigned underflow matters, the `nrows - 1` subtraction in
`to_python`, is modelled explicitly as a panic/`none` outcome), the
`calamine::Range<Data>` collaborator becomes `CalRange` (a dense
row-major grid with a declared start and end, per the spec's CellRange
description), and fallible paths (`unwrap`, underflow) return `Option`.
-/

/-- Cell datum of the parsing collaborator (`calamine::Data`).
Modelled from the spec: the spec treats the per-cell value as an opaque
datum with variants for at least empty/string/numeric/boolean; the
variants not needed by any claim (floats, dates, errors) are omitted. -/
inductive Data where
  | Empty : Data
  | String : String → Data
  | Int : Int → Data
  | Bool : Bool → Data
deriving DecidableEq, Repr

/-- Host-facing cell value (`crate::CellValue`).
Modelled from the spec: `CellValue` lives outside the provided source
file; the spec treats the conversion as opaque and only fixes that
padding cells are empty strings. -/
inductive CellValue where
  | String : String → CellValue
  | Int : Int → CellValue
  | Bool : Bool → CellValue
deriving DecidableEq, Repr

/-- Conversion `<&Data as Into<CellValue>>::into` applied per cell.
Modelled from the spec: the conversion itself is outside the provided
source; empty cells render as empty strings (spec glossary and padding
rows), other variants carry their payload across unchanged. -/
def dataToCellValue : Data → CellValue
  | Data.Empty => CellValue.String ""
  | Data.String s => CellValue.String s
  | Data.Int i => CellValue.Int i
  | Data.Bool b => CellValue.Bool b

/-- The shared 2D cell grid (`calamine::Range<Data>`).
Modelled from the spec: a rectangular grid addressed by zero-based
absolute `(row, col)` coordinates with a declared start and end that
need not be the origin; `inner` holds the rows between `rstart` and
`rend` (row-major); the range is empty when `inner` is empty. -/
structure CalRange where
  rstart : Nat × Nat
  rend : Nat × Nat
  inner : List (List Data)
deriving DecidableEq, Repr

/-- Declared start coordinate, `Range::start()`: `none` when the range
holds no cells. -/
def CalRange.start? (rg : CalRange) : Option (Nat × Nat) :=
  if rg.inner.isEmpty then none else some rg.rstart

/-- Declared end coordinate, `Range::end()`: `none` when the range holds
no cells. -/
def CalRange.end? (rg : CalRange) : Option (Nat × Nat) :=
  if rg.inner.isEmpty then none else some rg.rend

/-- Number of rows spanned, `Range::height()`: 0 when empty, otherwise
`end.row - start.row + 1`. -/
def CalRange.height (rg : CalRange) : Nat :=
  if rg.inner.isEmpty then 0 else rg.rend.1 - rg.rstart.1 + 1

/-- Number of columns spanned, `Range::width()`: 0 when empty, otherwise
`end.col - start.col + 1`. -/
def CalRange.width (rg : CalRange) : Nat :=
  if rg.inner.isEmpty then 0 else rg.rend.2 - rg.rstart.2 + 1

/-- Row iterator contents, `Range::rows()`: the rows between the
declared start and end. -/
def CalRange.rows (rg : CalRange) : List (List Data) :=
  rg.inner

/-- Cell lookup by absolute coordinate, `Range::get_value`: `some` value
when the coordinate lies inside the declared rectangle, `none`
otherwise. -/
def CalRange.get_value (rg : CalRange) (p : Nat × Nat) : Option Data :=
  if rg.rstart.1 ≤ p.1 ∧ p.1 ≤ rg.rend.1 ∧ rg.rstart.2 ≤ p.2 ∧ p.2 ≤ rg.rend.2 then
    (rg.inner.getD (p.1 - rg.rstart.1) []).get? (p.2 - rg.rstart.2)
  else none

/-- Cell mutation by absolute coordinate, `Range::set_value`.
Modelled from the spec: the spec only specifies coordinate-indexed
mutation used by merge flattening; the write lands when the coordinate
lies inside the declared rectangle and is a no-op otherwise (merge
validation keeps every written coordinate at or below the declared
end). -/
def CalRange.set_value (rg : CalRange) (p : Nat × Nat) (v : Data) : CalRange :=
  if rg.rstart.1 ≤ p.1 ∧ p.1 ≤ rg.rend.1 ∧ rg.rstart.2 ≤ p.2 ∧ p.2 ≤ rg.rend.2 then
    let newRow := (rg.inner.getD (p.1 - rg.rstart.1) []).set (p.2 - rg.rstart.2) v
    { rg with inner := rg.inner.set (p.1 - rg.rstart.1) newRow }
  else rg

/-- Sub-range extraction, `Range::range(start, end)`.
Modelled from the spec: carves a new range anchored at the given
absolute start and end, where every cell inside the original rectangle
keeps its value and every cell outside it (the empty area above the
original start included) is represented as an empty cell. -/
def CalRange.sub_range (rg : CalRange) (s e : Nat × Nat) : CalRange :=
  { rstart := s
    rend := e
    inner := (List.range (e.1 + 1 - s.1)).map fun i =>
      (List.range (e.2 + 1 - s.2)).map fun j =>
        (rg.get_value (s.1 + i, s.2 + j)).getD Data.Empty }

/-- Outcome of `CalamineSheet::merge_cells`: the two typed validation
failures (`PyValueError` with the invalid-range / out-of-bounds
message) or success. -/
inductive MergeStatus where
  | invalidRegion : MergeStatus
  | outOfBounds : MergeStatus
  | ok : MergeStatus
deriving DecidableEq, Repr

/-- The sheet view `CalamineSheet`: a name, shared ownership of one
`CalRange`, and the merged-cells overlay (`HashSet` of 4-tuples,
embedded as a `Finset`). -/
structure CalamineSheet where
  name : String
  range : CalRange
  merged_cells : Finset (Nat × Nat × Nat × Nat)

/-- Getter `CalamineSheet::height`, delegating to `Range::height`. -/
def CalamineSheet.height (s : CalamineSheet) : Nat :=
  s.range.height

/-- Getter `CalamineSheet::width`, delegating to `Range::width`. -/
def CalamineSheet.width (s : CalamineSheet) : Nat :=
  s.range.width

/-- Getter `CalamineSheet::total_height`:
`self.range.end().unwrap_or_default().0`. -/
def CalamineSheet.total_height (s : CalamineSheet) : Nat :=
  (s.range.end?.getD (0, 0)).1

/-- Getter `CalamineSheet::total_width`:
`self.range.end().unwrap_or_default().1`. -/
def CalamineSheet.total_width (s : CalamineSheet) : Nat :=
  (s.range.end?.getD (0, 0)).2

/-- Effective row count in `CalamineSheet::to_python`: the `nrows`
argument when given, else `end.row + 1` (0 when the range is empty). -/
def effective_nrows (s : CalamineSheet) (nrowsArg : Option Nat) : Nat :=
  match nrowsArg with
  | some n => n
  | none =>
    match s.range.end? with
    | some e => e.1 + 1
    | none => 0

/-- Bulk materialization `CalamineSheet::to_python(skip_empty_area, nrows)`.
When `skip_empty_area` is true or the range starts at the origin (or the
range is empty), the underlying range is used unmodified; otherwise a
sub-range from the origin is carved with end row
`if nrows > end.0 then end.0 else nrows - 1`. The `nrows - 1` is a `u32`
subtraction that panics on underflow (`nrows = 0`), modelled as `none`.
The selected range's rows, truncated to `nrows`, are converted cell by
cell. -/
def CalamineSheet.to_python (s : CalamineSheet) (skip_empty_area : Bool)
    (nrowsArg : Option Nat) : Option (List (List CellValue)) :=
  let nrows := effective_nrows s nrowsArg
  (if skip_empty_area ∨ s.range.start? = some (0, 0) then
    some s.range
  else
    match s.range.end? with
    | some e =>
      if nrows > e.1 then
        some (s.range.sub_range (0, 0) (e.1, e.2))
      else if nrows = 0 then
        none
      else
        some (s.range.sub_range (0, 0) (nrows - 1, e.2))
    | none => some s.range).map
    fun rg => (rg.rows.take nrows).map fun row => row.map dataToCellValue

/-- The row-major rectangle rewrite inside `merge_cells`: for each
`(row, col)` with `start_row ≤ row ≤ end_row`, `start_col ≤ col ≤ end_col`,
the anchor `(start_row, start_col)` gets the saved `merged_value` written
back (skipped when the anchor read `none`) and every other coordinate
gets `Data::Empty`. -/
def mergeRect (rg : CalRange) (start_row start_col end_row end_col : Nat)
    (merged_value : Option Data) : CalRange :=
  (List.range (end_row + 1 - start_row)).foldl
    (fun acc1 i =>
      (List.range (end_col + 1 - start_col)).foldl
        (fun acc2 j =>
          if start_row + i = start_row ∧ start_col + j = start_col then
            match merged_value with
            | some v => acc2.set_value (start_row + i, start_col + j) v
            | none => acc2
          else
            acc2.set_value (start_row + i, start_col + j) Data.Empty)
        acc1)
    rg

/-- Merge mutation `CalamineSheet::merge_cells`. Validation order follows
the source: the invalid-region check first, then the out-of-bounds check
against `self.height()` / `self.width()` at call time. On success the
source clones the range (`(*self.range).clone()`), reads the anchor
value, rewrites the rectangle in the clone, and then drops the clone
without ever publishing it back into `self.range`; only the overlay
insertion is observable. The embedding mirrors this: `_mutated` is
computed and discarded. -/
def CalamineSheet.merge_cells (s : CalamineSheet)
    (start_row start_col end_row end_col : Nat) : MergeStatus × CalamineSheet :=
  if start_row > end_row ∨ start_col > end_col then
    (MergeStatus.invalidRegion, s)
  else if end_row ≥ s.height ∨ end_col ≥ s.width then
    (MergeStatus.outOfBounds, s)
  else
    let _mutated := mergeRect s.range start_row start_col end_row end_col
      (s.range.get_value (start_row, start_col))
    (MergeStatus.ok,
      { s with merged_cells :=
          insert (start_row, start_col, end_row, end_col) s.merged_cells })

/-- Snapshot accessor `CalamineSheet::get_merged_cells`: the current
contents of the overlay as an unordered collection (the lock-failure
branch, treated by the spec as fatal and never taken in a single-thread
embedding, is not modelled). -/
def CalamineSheet.get_merged_cells (s : CalamineSheet) :
    Finset (Nat × Nat × Nat × Nat) :=
  s.merged_cells

/-- Row cursor state `CalamineCellIterator`: position counter, the
range's declared start, the precomputed padding row, the not yet
consumed rows of the live iterator, and the shared range (a dead field
in the source, kept for ownership). -/
structure CalamineCellIterator where
  position : Nat
  start : Nat × Nat
  empty_row : List CellValue
  iter : List (List Data)
  range : CalRange
deriving DecidableEq, Repr

/-- Cursor construction `CalamineCellIterator::from_range`: the source
calls `range.start().unwrap()`, which panics when the range is empty;
the panic is modelled as `none`. -/
def CalamineCellIterator.from_range (rg : CalRange) : Option CalamineCellIterator :=
  match rg.start? with
  | none => none
  | some st =>
    some
      { position := 0
        start := st
        empty_row := (List.range rg.width).map fun _ => CellValue.String ""
        iter := rg.rows
        range := rg }

/-- Cursor construction entry point `CalamineSheet::iter_rows`. -/
def CalamineSheet.iter_rows (s : CalamineSheet) : Option CalamineCellIterator :=
  CalamineCellIterator.from_range s.range

/-- One `__next__` call: increment the position counter first; while
`position ≤ start.0` return a copy of the precomputed empty row,
otherwise draw the next row from the live iterator (converted cell by
cell), yielding `none` once it is exhausted. -/
def CalamineCellIterator.next (it0 : CalamineCellIterator) :
    Option (List CellValue) × CalamineCellIterator :=
  let it := { it0 with position := it0.position + 1 }
  if it.position > it.start.1 then
    match it.iter with
    | [] => (none, it)
    | row :: rest => (some (row.map dataToCellValue), { it with iter := rest })
  else
    (some it.empty_row, it)

/-- Run a cursor for `n` consecutive `__next__` calls, collecting the
outputs in order together with the final cursor state. -/
def iterRun : Nat → CalamineCellIterator → List (Option (List CellValue)) × CalamineCellIterator
  | 0, it => ([], it)
  | n + 1, it =>
    let step := it.next
    let rest := iterRun n step.2
    (step.1 :: rest.1, rest.2)

/-! Concrete example ranges and sheets used as evaluation inputs and
hypothesis witnesses. -/

/-- A 2x2 origin-anchored range: row 0 is `["X", "Y"]`, row 1 is
`["A", "B"]`. -/
def rgC1 : CalRange :=
  ⟨(0, 0), (1, 1),
   [[Data.String "X", Data.String "Y"], [Data.String "A", Data.String "B"]]⟩

/-- Sheet view over `rgC1` with an empty overlay. -/
def sheetC1 : CalamineSheet :=
  ⟨"s1", rgC1, ∅⟩

/-- A 1x1 range declared at start `(1, 0)`: non-empty, start not at the
origin. -/
def rgC7 : CalRange :=
  ⟨(1, 0), (1, 0), [[Data.String "x"]]⟩

/-- Sheet view over `rgC7` with an empty overlay. -/
def sheetC7 : CalamineSheet :=
  ⟨"s7", rgC7, ∅⟩

/-- C1: the spec's testable property says that after a successful
`merge_cells(0,0,1,1)` every cell of the region except the anchor reads
as empty. The code clones the range, clears cells only in the clone and
drops it, so the view's range is bit-for-bit unchanged: on the 2x2
sheet `sheetC1` the merge succeeds, the view's range still equals
`rgC1`, cell `(0,1)` still reads `"Y"` (not empty), while the discarded
clone did have `(0,1)` cleared — the clearing loop is dead code. -/
theorem C1_merge_discards_mutation :
    (sheetC1.merge_cells 0 0 1 1).1 = MergeStatus.ok ∧
    ((sheetC1.merge_cells 0 0 1 1).2).range = rgC1 ∧
    ((sheetC1.merge_cells 0 0 1 1).2).range.get_value (0, 1) =
      some (Data.String "Y") ∧
    (mergeRect rgC1 0 0 1 1 (rgC1.get_value (0, 0))).get_value (0, 1) =
      some Data.Empty := by
  refine ⟨rfl, rfl, rfl, ?_⟩
  decide

/-- C3: with `start_row ≤ end_row` and `start_col ≤ end_col`, the merge
fails with `OutOfBounds` exactly when `end_row ≥ height()` or
`end_col ≥ width()`, evaluated at call time. -/
theorem C3_merge_out_of_bounds_iff (s : CalamineSheet)
    (start_row start_col end_row end_col : Nat)
    (h1 : start_row ≤ end_row) (h2 : start_col ≤ end_col) :
    (s.merge_cells start_row start_col end_row end_col).1 =
        MergeStatus.outOfBounds ↔
      (end_row ≥ s.height ∨ end_col ≥ s.width) := by
  have hA : ¬ (start_row > end_row ∨ start_col > end_col) := by omega
  by_cases hB : end_row ≥ s.height ∨ end_col ≥ s.width
  · simp [CalamineSheet.merge_cells, hA, hB]
  · simp [CalamineSheet.merge_cells, hA, hB]

/-- Witness for C3 at a concrete input: merging `(0,0)..(2,1)` on the
2x2 sheet `sheetC1` (`end_row = height()`) fails with `OutOfBounds`. -/
theorem C3_merge_out_of_bounds_iff_witness :
    (sheetC1.merge_cells 0 0 2 1).1 = MergeStatus.outOfBounds ↔
      (2 ≥ sheetC1.height ∨ 1 ≥ sheetC1.width) :=
  C3_merge_out_of_bounds_iff sheetC1 0 0 2 1 (by decide) (by decide)

/-- C4: a merge call with `start_row > end_row` or `start_col > end_col`
fails with `InvalidRegion` before any mutation: the whole sheet state —
range and overlay, hence `get_merged_cells` — is returned unmodified. -/
theorem C4_merge_invalid_region (s : CalamineSheet)
    (start_row start_col end_row end_col : Nat)
    (h : start_row > end_row ∨ start_col > end_col) :
    s.merge_cells start_row start_col end_row end_col =
      (MergeStatus.invalidRegion, s) ∧
    ((s.merge_cells start_row start_col end_row end_col).2).get_merged_cells =
      s.get_merged_cells := by
  constructor
  · simp [CalamineSheet.merge_cells, h]
  · simp [CalamineSheet.merge_cells, h]

/-- Witness for C4 at a concrete input: `merge_cells(1,0,0,1)` on
`sheetC1` fails with `InvalidRegion` and leaves the sheet unchanged. -/
theorem C4_merge_invalid_region_witness :
    sheetC1.merge_cells 1 0 0 1 = (MergeStatus.invalidRegion, sheetC1) ∧
    ((sheetC1.merge_cells 1 0 0 1).2).get_merged_cells =
      sheetC1.get_merged_cells :=
  C4_merge_invalid_region sheetC1 1 0 0 1 (by decide)

/-- C6: when the range starts at the origin, `to_python` ignores the
`skip_empty_area` flag with `nrows = None`: both paths use the full
underlying range unmodified. -/
theorem C6_skip_flag_irrelevant_at_origin (s : CalamineSheet)
    (h : s.range.start? = some (0, 0)) :
    s.to_python false none = s.to_python true none := by
  simp [CalamineSheet.to_python, h]

/-- Witness for C6 at a concrete input: on the origin-anchored sheet
`sheetC1` both flag values materialize the same output. -/
theorem C6_skip_flag_irrelevant_at_origin_witness :
    sheetC1.to_python false none = sheetC1.to_python true none :=
  C6_skip_flag_irrelevant_at_origin sheetC1 (by decide)

/-- C9: cursor construction (`iter_rows`, hence `from_range`) fails —
the source's `range.start().unwrap()` panics — exactly when the view's
range is empty (`start() = None`); the failure branch is unreachable
precisely when the range is non-empty. -/
theorem C9_iter_rows_total_iff_nonempty (s : CalamineSheet) :
    s.iter_rows = none ↔ s.range.start? = none := by
  unfold CalamineSheet.iter_rows CalamineCellIterator.from_range
  cases h : s.range.start? <;> simp [h]

/-- C5: two successful `merge_cells` calls with identical arguments
leave the overlay with exactly one entry for that 4-tuple — the second
insertion is a no-op on the set, so the second call returns the state
of the first unchanged. -/
theorem C5_merge_idempotent_insert (s : CalamineSheet) (sr sc er ec : Nat)
    (h : (s.merge_cells sr sc er ec).1 = MergeStatus.ok) :
    (((s.merge_cells sr sc er ec).2).merge_cells sr sc er ec) =
      (MergeStatus.ok, (s.merge_cells sr sc er ec).2) ∧
    ((((s.merge_cells sr sc er ec).2).merge_cells sr sc er ec).2).get_merged_cells.filter
        (fun t => t = (sr, sc, er, ec)) = {(sr, sc, er, ec)} := by
  by_cases hA : sr > er ∨ sc > ec
  · simp [CalamineSheet.merge_cells, hA] at h
  by_cases hB : er ≥ s.range.height ∨ ec ≥ s.range.width
  · simp [CalamineSheet.merge_cells, CalamineSheet.height,
      CalamineSheet.width, hA, hB] at h
  · have hs1 : s.merge_cells sr sc er ec =
        (MergeStatus.ok, { s with merged_cells := insert (sr, sc, er, ec) s.merged_cells }) := by
      simp [CalamineSheet.merge_cells, CalamineSheet.height,
        CalamineSheet.width, hA, hB]
    have hs2 : ({ s with merged_cells := insert (sr, sc, er, ec) s.merged_cells } :
          CalamineSheet).merge_cells sr sc er ec =
        (MergeStatus.ok, { s with merged_cells := insert (sr, sc, er, ec) s.merged_cells }) := by
      simp [CalamineSheet.merge_cells, CalamineSheet.height,
        CalamineSheet.width, hA, hB, Finset.insert_idem]
    rw [hs1]
    refine ⟨hs2, ?_⟩
    rw [hs2]
    simp [CalamineSheet.get_merged_cells, Finset.filter_eq']

/-- Witness for C5 at a concrete input: merging `(0,0)..(1,1)` twice on
`sheetC1` — the second call is a state no-op and the overlay holds the
tuple exactly once. -/
theorem C5_merge_idempotent_insert_witness :
    (((sheetC1.merge_cells 0 0 1 1).2).merge_cells 0 0 1 1) =
      (MergeStatus.ok, (sheetC1.merge_cells 0 0 1 1).2) ∧
    ((((sheetC1.merge_cells 0 0 1 1).2).merge_cells 0 0 1 1).2).get_merged_cells.filter
        (fun t => t = (0, 0, 1, 1)) = {(0, 0, 1, 1)} :=
  C5_merge_idempotent_insert sheetC1 0 0 1 1 (by decide)

/-- C7 counterexample: the claim asserts that for every non-empty range
whose start is not the origin `total_height() = height() - 1` and
`total_width() = width() - 1`. On `sheetC7` (start `(1,0)`, end `(1,0)`,
non-empty) `total_height() = 1` while `height() - 1 = 0`. -/
theorem C7_total_height_counterexample :
    sheetC7.range.start?.isSome = true ∧
    sheetC7.range.start? ≠ some (0, 0) ∧
    sheetC7.total_height ≠ sheetC7.height - 1 := by
  decide

/-- C7 amended: `total_height()`/`total_width()` return `end.row`/`end.col`
(0 when the range is empty); for every well-formed non-empty range
`total_height() + 1 = height() + start.row` and
`total_width() + 1 = width() + start.col` (so they equal
`height() - 1`/`width() - 1` exactly when the corresponding start
coordinate is 0, not whenever the start differs from the origin). -/
theorem C7_total_dimensions (s : CalamineSheet)
    (h1 : s.range.rstart.1 ≤ s.range.rend.1)
    (h2 : s.range.rstart.2 ≤ s.range.rend.2) :
    ((∀ e, s.range.end? = some e →
        s.total_height = e.1 ∧ s.total_width = e.2) ∧
     (s.range.end? = none → s.total_height = 0 ∧ s.total_width = 0)) ∧
    (s.range.start?.isSome →
      s.total_height + 1 = s.height + s.range.rstart.1 ∧
      s.total_width + 1 = s.width + s.range.rstart.2) := by
  obtain ⟨nm, ⟨rs, re, inn⟩, mc⟩ := s
  cases inn with
  | nil =>
    simp [CalamineSheet.total_height, CalamineSheet.total_width,
      CalamineSheet.height, CalamineSheet.width, CalRange.end?,
      CalRange.start?, CalRange.height, CalRange.width]
  | cons r rws =>
    refine ⟨⟨fun e he => ?_, fun he => ?_⟩, fun _ => ?_⟩
    · have he2 : re = e := by
        simpa [CalRange.end?] using he
      subst he2
      simp [CalamineSheet.total_height, CalamineSheet.total_width, CalRange.end?]
    · simp [CalRange.end?] at he
    · simp only [CalamineSheet.total_height, CalamineSheet.total_width,
        CalamineSheet.height, CalamineSheet.width, CalRange.end?,
        CalRange.height, CalRange.width, List.isEmpty_cons, if_false,
        Bool.false_eq_true, Option.getD_some] at h1 h2 ⊢
      constructor <;> omega

/-- Witness for C7 at a concrete input: on `sheetC7` (start `(1,0)`,
end `(1,0)`) `total_height + 1 = height + 1` and
`total_width + 1 = width + 0`. -/
theorem C7_total_dimensions_witness :
    sheetC7.total_height + 1 = sheetC7.height + sheetC7.range.rstart.1 ∧
    sheetC7.total_width + 1 = sheetC7.width + sheetC7.range.rstart.2 :=
  (C7_total_dimensions sheetC7 (by decide) (by decide)).2 (by decide)

/-- While the position counter has not yet passed the declared start
row, every `__next__` call returns the precomputed empty row and only
the position advances: running `n` calls from a state with
`position + n ≤ start.0` yields `n` copies of the padding row and
leaves the live row iterator untouched. -/
theorem iterRun_padding : ∀ (n : Nat) (it : CalamineCellIterator),
    it.position + n ≤ it.start.1 →
    iterRun n it = (List.replicate n (some it.empty_row),
      { it with position := it.position + n })
  | 0, it, _ => rfl
  | n + 1, it, h => by
    have hgt : ¬ (it.position + 1 > it.start.1) := by omega
    have hstep : it.next = (some it.empty_row,
        { it with position := it.position + 1 }) := by
      simp [CalamineCellIterator.next, hgt]
    have ih := iterRun_padding n { it with position := it.position + 1 }
      (show it.position + 1 + n ≤ it.start.1 by omega)
    have hpos : it.position + 1 + n = it.position + (n + 1) := by omega
    simp [iterRun, hstep, ih, hpos, List.replicate_succ]

/-- C2: a cursor freshly obtained from `iter_rows` over a range with
declared start `(sr, sc)`, `sr > 0`, yields exactly `sr` padding rows —
each the precomputed all-empty row of width `width()` — on its first
`sr` calls, and its next call draws the first real data row from the
underlying iterator (this holds for every range contents: the phase is
driven purely by the position counter). -/
theorem C2_cursor_padding_rows (s : CalamineSheet) (sr sc : Nat)
    (it : CalamineCellIterator) (hit : s.iter_rows = some it)
    (hstart : s.range.start? = some (sr, sc)) (_hsr : 0 < sr) :
    (iterRun sr it).1 =
      List.replicate sr (some (List.replicate s.width (CellValue.String ""))) ∧
    ((iterRun sr it).2.next).1 =
      s.range.rows.head?.map (fun row => row.map dataToCellValue) := by
  rw [CalamineSheet.iter_rows, CalamineCellIterator.from_range, hstart] at hit
  simp only [Option.some.injEq] at hit
  subst hit
  have hrow : (List.range s.range.width).map (fun _ => CellValue.String "") =
      List.replicate s.range.width (CellValue.String "") := by
    simp [List.map_const']
  have hpad := iterRun_padding sr
    { position := 0, start := (sr, sc),
      empty_row := (List.range s.range.width).map fun _ => CellValue.String "",
      iter := s.range.rows, range := s.range }
    (by simp)
  refine ⟨?_, ?_⟩
  · rw [hpad]
    simp [hrow, CalamineSheet.width]
  · rw [hpad]
    have hgt : sr + 1 > sr := Nat.lt_succ_self sr
    cases hr : s.range.rows with
    | nil => simp [CalamineCellIterator.next, hr, hgt]
    | cons row rest => simp [CalamineCellIterator.next, hr, hgt]

/-- A 1x1 range declared at start `(2, 1)`, used to witness C2 with two
padding rows. -/
def rgC2 : CalRange :=
  ⟨(2, 1), (2, 1), [[Data.String "v"]]⟩

/-- Sheet view over `rgC2` with an empty overlay. -/
def sheetC2 : CalamineSheet :=
  ⟨"s2", rgC2, ∅⟩

/-- The cursor `sheetC2.iter_rows` constructs. -/
def itC2 : CalamineCellIterator :=
  ⟨0, (2, 1), [CellValue.String ""], [[Data.String "v"]], rgC2⟩

/-- Witness for C2 at a concrete input: over `rgC2` (start row 2) the
cursor's first two calls yield the padding row `[""]` and the third
call yields the real data row. -/
theorem C2_cursor_padding_rows_witness :
    (iterRun 2 itC2).1 =
      List.replicate 2 (some (List.replicate sheetC2.width (CellValue.String ""))) ∧
    ((iterRun 2 itC2).2.next).1 =
      sheetC2.range.rows.head?.map (fun row => row.map dataToCellValue) :=
  C2_cursor_padding_rows sheetC2 2 1 itC2 (by decide) (by decide) (by decide)

/-- The spec's worked example range: declared start `(1, 0)`, end
`(3, 1)`, so `height = 3`, `width = 2`, with three concrete data
rows. -/
def rgC8 : CalRange :=
  ⟨(1, 0), (3, 1),
   [[Data.String "a", Data.String "b"],
    [Data.String "c", Data.String "d"],
    [Data.String "e", Data.String "f"]]⟩

/-- The cursor a fresh `from_range` over `rgC8` constructs. -/
def itC8 : CalamineCellIterator :=
  ⟨0, (1, 0), [CellValue.String "", CellValue.String ""], rgC8.inner, rgC8⟩

/-- C8 counterexample: on the spec's example range (start `(1,0)`, end
`(3,1)`, height 3, width 2) the claim says the fresh cursor's fourth
call to `next()` returns nothing; in fact the fourth call returns the
third (last) real data row — one padding row plus three data rows make
four productive calls. -/
theorem C8_fourth_call_counterexample :
    CalamineCellIterator.from_range rgC8 = some itC8 ∧
    rgC8.height = 3 ∧ rgC8.width = 2 ∧
    (iterRun 4 itC8).1.getLast? =
      some (some [CellValue.String "e", CellValue.String "f"]) := by
  decide

/-- C8 amended: on the example range the fresh cursor's first call
returns the padding row `["", ""]`, its second call returns the first
real data row, its third and fourth calls return the remaining two data
rows, and its fifth call to `next()` returns nothing. -/
theorem C8_cursor_example :
    CalamineCellIterator.from_range rgC8 = some itC8 ∧
    (iterRun 5 itC8).1 =
      [some [CellValue.String "", CellValue.String ""],
       some [CellValue.String "a", CellValue.String "b"],
       some [CellValue.String "c", CellValue.String "d"],
       some [CellValue.String "e", CellValue.String "f"],
       none] := by
  decide

/-- C10: `to_python` hits the unguarded `u32` subtraction `nrows - 1`
(and so is partial) exactly when `skip_empty_area` is false, the range
is non-empty with a start other than `(0,0)`, and the `nrows` argument
is `Some(0)`; for every other combination — any `nrows ≥ 1`, `nrows =
None`, `skip_empty_area = true`, origin start or empty range — the call
is total. -/
theorem C10_to_python_partiality (s : CalamineSheet) (skip : Bool)
    (nrowsArg : Option Nat) :
    s.to_python skip nrowsArg = none ↔
      (skip = false ∧ s.range.start?.isSome ∧
       s.range.start? ≠ some (0, 0) ∧ nrowsArg = some 0) := by
  obtain ⟨nm, ⟨rs, re, inn⟩, mc⟩ := s
  cases skip with
  | true =>
    simp [CalamineSheet.to_python]
  | false =>
    cases inn with
    | nil =>
      cases nrowsArg <;>
        simp [CalamineSheet.to_python, effective_nrows, CalRange.start?,
          CalRange.end?]
    | cons r rws =>
      by_cases hrs : rs = (0, 0)
      · subst hrs
        cases nrowsArg <;>
          simp [CalamineSheet.to_python, effective_nrows, CalRange.start?,
            CalRange.end?]
      · cases nrowsArg with
        | none =>
          simp [CalamineSheet.to_python, effective_nrows, CalRange.start?,
            CalRange.end?, hrs]
          split <;> simp
        | some n =>
          rcases Nat.eq_zero_or_pos n with hn | hn
          · subst hn
            simp [CalamineSheet.to_python, effective_nrows, CalRange.start?,
              CalRange.end?, hrs]
          · have hn0 : n ≠ 0 := by omega
            by_cases hgt : n > re.1 <;>
              · simp [CalamineSheet.to_python, effective_nrows, CalRange.start?,
                  CalRange.end?, hrs, hgt, hn0]
                split <;> simp
